import Mathlib

/-!
Shallow embedding of the cheese_wizard registry core
(src/cheese.rs, src/lib.rs user module, src/requests.rs).

Rust HashMaps are embedded as association lists with the usual
HashMap semantics: lookup finds the first (and, by construction,
only) binding of a key; insertion overwrites the binding in place
when the key is present and appends otherwise.  Uuid is embedded
as an opaque Nat.  Mutation through `&mut` references is embedded
as explicit state passing: operations that mutate their receiver
return the updated value alongside the `Result`.
-/

deriving instance DecidableEq for Except

namespace CheeseWizard

/-- Lookup in an association list: the value bound to `k`, if any. -/
def mapFind {K V : Type} [DecidableEq K] (k : K) : List (K × V) → Option V
  | [] => none
  | (k2, v) :: rest => if k2 = k then some v else mapFind k rest

/-- Key membership test, the embedding of HashMap::contains_key. -/
def mapContains {K V : Type} [DecidableEq K] (k : K) (m : List (K × V)) : Bool :=
  (mapFind k m).isSome

/-- The embedding of HashMap::insert: overwrite the binding of `k`
in place when present, append otherwise. -/
def mapSet {K V : Type} [DecidableEq K] (k : K) (v : V) : List (K × V) → List (K × V)
  | [] => [(k, v)]
  | (k2, v2) :: rest => if k2 = k then (k2, v) :: rest else (k2, v2) :: mapSet k v rest

/-- Uuid, embedded as an opaque identifier. -/
abbrev Uuid := Nat

/-- CheeseRating from cheese.rs: a newtype over u8. -/
structure CheeseRating where
  val : Nat
deriving DecidableEq

/-- RatingBoundsError from cheese.rs. -/
inductive RatingBoundsError where
  | ExceedsMaximumRating
  | BelowMinimumRating
deriving DecidableEq

/-- CheeseRating::new from cheese.rs, lines 83-93: bounds-checked
constructor accepting only 1..=10. -/
def CheeseRating.new (rating : Nat) : Except RatingBoundsError CheeseRating :=
  if rating < 1 then .error .BelowMinimumRating
  else if rating > 10 then .error .ExceedsMaximumRating
  else .ok ⟨rating⟩

/-- RegistryCheeseRating from cheese.rs: a (user id, rating) pair. -/
structure RegistryCheeseRating where
  user_id : Uuid
  rating : CheeseRating
deriving DecidableEq

/-- RegistryCheeseRatingMap from cheese.rs: ratings a cheese has
received, keyed by user id. -/
structure RegistryCheeseRatingMap where
  entries : List (Uuid × CheeseRating)
deriving DecidableEq

/-- RegistryCheeseRatingMap::insert from cheese.rs, lines 101-104:
a plain HashMap::insert with no duplicate check, so an existing
key is silently overwritten and no error is ever reported. -/
def RegistryCheeseRatingMap.insert (m : RegistryCheeseRatingMap)
    (r : RegistryCheeseRating) : RegistryCheeseRatingMap :=
  ⟨mapSet r.user_id r.rating m.entries⟩

/-- RegistryCheeseRatingMap::get from cheese.rs, lines 106-108: the
source indexes the HashMap directly, which panics when the key is
absent; `none` embeds that panic. -/
def RegistryCheeseRatingMap.get (m : RegistryCheeseRatingMap) (uuid : Uuid) :
    Option CheeseRating :=
  mapFind uuid m.entries

/-- CheeseData from cheese.rs: a named cheese and the ratings it
has received. -/
structure CheeseData where
  name : String
  ratings : RegistryCheeseRatingMap
deriving DecidableEq

/-- The derived Default for CheeseData: empty name, empty map. -/
def CheeseData.default : CheeseData :=
  ⟨"", ⟨[]⟩⟩

/-- CheeseData::name from cheese.rs, the builder that replaces the
name field. -/
def CheeseData.setName (c : CheeseData) (name : String) : CheeseData :=
  { c with name := name }

/-- CheeseData::insert_rating from cheese.rs: delegates to the
unchecked RegistryCheeseRatingMap::insert. -/
def CheeseData.insert_rating (c : CheeseData) (r : RegistryCheeseRating) : CheeseData :=
  { c with ratings := c.ratings.insert r }

/-- CheeseRegistryError from cheese.rs. -/
inductive CheeseRegistryError where
  | DuplicateCheeseName
  | NoSuchCheeseInRegistry
deriving DecidableEq

/-- CheeseRegistry from cheese.rs: cheeses keyed by name. -/
structure CheeseRegistry where
  entries : List (String × CheeseData)
deriving DecidableEq

/-- CheeseRegistry::new from cheese.rs. -/
def CheeseRegistry.new : CheeseRegistry :=
  ⟨[]⟩

/-- CheeseRegistry::insert from cheese.rs, lines 33-40: reject a
duplicate name, otherwise store the cheese keyed by its name.  The
mutated registry is returned alongside the Result (the Rust
function mutates through &mut self). -/
def CheeseRegistry.insert (reg : CheeseRegistry) (cheese : CheeseData) :
    Except CheeseRegistryError Unit × CheeseRegistry :=
  if mapContains cheese.name reg.entries then
    (.error .DuplicateCheeseName, reg)
  else
    (.ok (), ⟨mapSet cheese.name cheese reg.entries⟩)

/-- CheeseRegistry::get_mut from cheese.rs, lines 42-48: the borrow
of the entry is embedded as returning the entry's current value. -/
def CheeseRegistry.get_mut (reg : CheeseRegistry) (cheese_name : String) :
    Except CheeseRegistryError CheeseData :=
  match mapFind cheese_name reg.entries with
  | some cheese => .ok cheese
  | none => .error .NoSuchCheeseInRegistry

/-- The write-back of a mutation performed through the &mut handle
that CheeseRegistry::get_mut hands out: the entry under the looked-up
key is replaced by its mutated value. -/
def CheeseRegistry.setEntry (reg : CheeseRegistry) (cheese_name : String)
    (cheese : CheeseData) : CheeseRegistry :=
  ⟨mapSet cheese_name cheese reg.entries⟩

/-- UserDataError from the user module (lib.rs, lines 18-21). -/
inductive UserDataError where
  | DuplicateCheeseName
deriving DecidableEq

/-- UserCheeseRating from the user module (lib.rs, line 68): a
(cheese name, rating) pair. -/
structure UserCheeseRating where
  cheese_name : String
  rating : CheeseRating
deriving DecidableEq

/-- UserCheeseRatingMap from the user module (lib.rs, line 71):
ratings a user has given, keyed by cheese name. -/
structure UserCheeseRatingMap where
  entries : List (String × CheeseRating)
deriving DecidableEq

/-- UserCheeseRatingMap::insert from lib.rs, lines 74-76: a plain
HashMap::insert with no duplicate check. -/
def UserCheeseRatingMap.insert (m : UserCheeseRatingMap) (r : UserCheeseRating) :
    UserCheeseRatingMap :=
  ⟨mapSet r.cheese_name r.rating m.entries⟩

/-- UserCheeseRatingMap::get from lib.rs, lines 78-80: the source
indexes the HashMap directly, which panics when the key is absent;
`none` embeds that panic. -/
def UserCheeseRatingMap.get (m : UserCheeseRatingMap) (name : String) :
    Option CheeseRating :=
  mapFind name m.entries

/-- UserData from the user module (lib.rs, lines 11-16). -/
structure UserData where
  id : Uuid
  name : String
  age : Nat
  cheese_ratings : UserCheeseRatingMap
deriving DecidableEq

/-- UserData::insert_rating from lib.rs, lines 45-52: reject a
cheese name the user has already rated, otherwise record the
rating.  The mutated user is returned alongside the Result. -/
def UserData.insert_rating (user : UserData) (user_rating : UserCheeseRating) :
    Except UserDataError Unit × UserData :=
  if mapContains user_rating.cheese_name user.cheese_ratings.entries then
    (.error .DuplicateCheeseName, user)
  else
    (.ok (), { user with cheese_ratings := user.cheese_ratings.insert user_rating })

/-- CheeseRatingRequest from requests.rs. -/
structure CheeseRatingRequest where
  rating : Nat
  cheese : String
deriving DecidableEq

/-- NewCheeseRequest from requests.rs. -/
structure NewCheeseRequest where
  name : String
deriving DecidableEq

/-- The Box of dyn Error that rate_cheese returns: one of the three
concrete error types that the ? operators can propagate. -/
inductive RateCheeseError where
  | registryError (e : CheeseRegistryError)
  | boundsError (e : RatingBoundsError)
  | userError (e : UserDataError)
deriving DecidableEq

/-- rate_cheese from requests.rs, lines 19-29.  The two &mut
parameters are embedded as explicit state: the final user and
registry are returned in every branch, capturing that the cheese-side
insert at line 26 has already mutated the registry when the user-side
insert at line 27 fails. -/
def rate_cheese (request : CheeseRatingRequest) (user : UserData)
    (registry : CheeseRegistry) :
    Except RateCheeseError Unit × UserData × CheeseRegistry :=
  match registry.get_mut request.cheese with
  | .error e => (.error (.registryError e), user, registry)
  | .ok cheese =>
    match CheeseRating.new request.rating with
    | .error e => (.error (.boundsError e), user, registry)
    | .ok rating =>
      let cheese2 := cheese.insert_rating ⟨user.id, rating⟩
      let registry2 := registry.setEntry request.cheese cheese2
      match user.insert_rating ⟨request.cheese, rating⟩ with
      | (.error e, user2) => (.error (.userError e), user2, registry2)
      | (.ok _, user2) => (.ok (), user2, registry2)

/-- create_new_cheese from requests.rs, lines 31-37. -/
def create_new_cheese (request : NewCheeseRequest) (registry : CheeseRegistry) :
    Except CheeseRegistryError Unit × CheeseRegistry :=
  registry.insert (CheeseData.default.setName request.name)

/-- Modelled from the spec: the Ord comparison that `cheeses.sort()`
in requests.rs line 41 relies on is not present under src/ (CheeseData
there derives no Ord); the spec says all_cheeses "returns every cheese
sorted by name", so cheeses are compared by their name. -/
def cheeseLE (a b : CheeseData) : Prop :=
  a.name ≤ b.name

instance : DecidableRel cheeseLE :=
  fun a b => inferInstanceAs (Decidable (a.name ≤ b.name))

instance : IsTotal CheeseData cheeseLE :=
  ⟨fun a b => le_total a.name b.name⟩

instance : IsTrans CheeseData cheeseLE :=
  ⟨fun _ _ _ hab hbc => le_trans hab hbc⟩

/-- all_cheeses from requests.rs, lines 39-43: collect the registry's
cheeses and sort them (stably) by the modelled comparison. -/
def all_cheeses (registry : CheeseRegistry) : List CheeseData :=
  List.insertionSort cheeseLE (registry.entries.map Prod.snd)

/-- The registry of the all_cheeses integration test: cheeses named
Chedder, Mozzerella and Colby Jack created in that order. -/
def demoRegistry : CheeseRegistry :=
  (create_new_cheese ⟨"Colby Jack"⟩
    (create_new_cheese ⟨"Mozzerella"⟩
      (create_new_cheese ⟨"Chedder"⟩ CheeseRegistry.new).2).2).2

/-- A rating value within the documented bounds 1..=10. -/
def RatingValid (r : CheeseRating) : Prop :=
  1 ≤ r.val ∧ r.val ≤ 10

instance (r : CheeseRating) : Decidable (RatingValid r) :=
  inferInstanceAs (Decidable (1 ≤ r.val ∧ r.val ≤ 10))

/-- Every rating stored in a cheese-side rating map is in bounds. -/
def RatingMapWF (m : RegistryCheeseRatingMap) : Prop :=
  ∀ p ∈ m.entries, RatingValid p.2

instance (m : RegistryCheeseRatingMap) : Decidable (RatingMapWF m) :=
  inferInstanceAs (Decidable (∀ p ∈ m.entries, RatingValid p.2))

/-- Every rating stored in a cheese's rating map is in bounds. -/
def CheeseWF (c : CheeseData) : Prop :=
  RatingMapWF c.ratings

instance (c : CheeseData) : Decidable (CheeseWF c) :=
  inferInstanceAs (Decidable (RatingMapWF c.ratings))

/-- Every rating stored anywhere in a registry is in bounds. -/
def RegistryWF (reg : CheeseRegistry) : Prop :=
  ∀ p ∈ reg.entries, CheeseWF p.2

instance (reg : CheeseRegistry) : Decidable (RegistryWF reg) :=
  inferInstanceAs (Decidable (∀ p ∈ reg.entries, CheeseWF p.2))

/-- Every rating stored in a user's rating map is in bounds. -/
def UserWF (u : UserData) : Prop :=
  ∀ p ∈ u.cheese_ratings.entries, RatingValid p.2

instance (u : UserData) : Decidable (UserWF u) :=
  inferInstanceAs (Decidable (∀ p ∈ u.cheese_ratings.entries, RatingValid p.2))

/-- The public mutating operations of the core, for stating the
bounds invariant over arbitrary operation sequences. -/
inductive Op where
  | createCheese (req : NewCheeseRequest)
  | rate (userIdx : Nat) (req : CheeseRatingRequest)
  | insertCheese (cheese : CheeseData)
deriving DecidableEq

/-- A system state: the registry and the users known to the caller. -/
structure SysState where
  registry : CheeseRegistry
  users : List UserData
deriving DecidableEq

/-- One public operation applied to a system state.  Failed
operations keep whatever state the underlying functions left
behind (rate_cheese in particular returns its possibly
half-mutated state). -/
def stepOp (s : SysState) : Op → SysState
  | .createCheese req => ⟨(create_new_cheese req s.registry).2, s.users⟩
  | .insertCheese c => ⟨(s.registry.insert c).2, s.users⟩
  | .rate i req =>
    match s.users[i]? with
    | none => s
    | some u =>
      let r := rate_cheese req u s.registry
      ⟨r.2.2, s.users.set i r.2.1⟩

/-- A sequence of public operations applied in order. -/
def runOps (s : SysState) (ops : List Op) : SysState :=
  ops.foldl stepOp s

/-- A caller-supplied operation is well formed when any cheese it
injects directly carries only in-bounds ratings — which is the only
kind of CheeseData constructible in Rust, where the rating field is
private and CheeseRating::new is bounds-checked. -/
def OpWF : Op → Prop
  | .insertCheese c => CheeseWF c
  | _ => True

instance (op : Op) : Decidable (OpWF op) := by
  cases op <;> simpa [OpWF] using inferInstanceAs (Decidable _)

/-- Every rating stored anywhere in a system state is in bounds. -/
def StateWF (s : SysState) : Prop :=
  RegistryWF s.registry ∧ ∀ u ∈ s.users, UserWF u

instance (s : SysState) : Decidable (StateWF s) :=
  inferInstanceAs (Decidable (RegistryWF s.registry ∧ ∀ u ∈ s.users, UserWF u))

/-! Basic lemmas about the association-list embedding of HashMap. -/

theorem mapFind_mapSet_self {K V : Type} [DecidableEq K] (k : K) (v : V) :
    ∀ m : List (K × V), mapFind k (mapSet k v m) = some v
  | [] => by simp [mapSet, mapFind]
  | (k2, v2) :: rest => by
    by_cases h : k2 = k
    · simp [mapSet, mapFind, h]
    · simp [mapSet, mapFind, h, mapFind_mapSet_self k v rest]

theorem mapFind_mapSet_ne {K V : Type} [DecidableEq K] {k k' : K} (h : k' ≠ k) (v : V) :
    ∀ m : List (K × V), mapFind k' (mapSet k v m) = mapFind k' m
  | [] => by
    have hne : ¬k = k' := fun hk => h hk.symm
    simp [mapSet, mapFind, hne]
  | (k2, v2) :: rest => by
    by_cases h2 : k2 = k
    · subst h2
      have hne : ¬k2 = k' := fun hk => h hk.symm
      simp [mapSet, mapFind, hne]
    · simp [mapSet, mapFind, h2, mapFind_mapSet_ne h v rest]

theorem keys_mapSet_of_contains {K V : Type} [DecidableEq K] {k : K} (v : V) :
    ∀ {m : List (K × V)}, mapContains k m = true →
      (mapSet k v m).map Prod.fst = m.map Prod.fst := by
  intro m
  induction m with
  | nil => simp [mapContains, mapFind]
  | cons hd tl ih =>
    obtain ⟨k2, v2⟩ := hd
    by_cases h2 : k2 = k
    · simp [mapSet, h2]
    · simp only [mapContains, mapFind, h2, if_false]
      intro hc
      simp [mapSet, h2, ih hc]

theorem mapFind_mem {K V : Type} [DecidableEq K] {k : K} {v : V} :
    ∀ {m : List (K × V)}, mapFind k m = some v → (k, v) ∈ m := by
  intro m
  induction m with
  | nil => simp [mapFind]
  | cons hd tl ih =>
    obtain ⟨k2, v2⟩ := hd
    intro hf
    by_cases h2 : k2 = k
    · subst h2
      simp only [mapFind, if_true, eq_self_iff_true, Option.some.injEq] at hf
      subst hf
      exact List.mem_cons_self _ _
    · simp only [mapFind, h2, if_false] at hf
      exact List.mem_cons_of_mem _ (ih hf)

theorem mapSet_forall {K V : Type} [DecidableEq K] {P : V → Prop} {k : K} {v : V} :
    ∀ {m : List (K × V)}, (∀ p ∈ m, P p.2) → P v → ∀ p ∈ mapSet k v m, P p.2 := by
  intro m
  induction m with
  | nil =>
    intro _ hv p hp
    simp only [mapSet, List.mem_singleton] at hp
    subst hp
    exact hv
  | cons hd tl ih =>
    obtain ⟨k2, v2⟩ := hd
    intro hm hv
    by_cases h2 : k2 = k
    · simp only [mapSet, h2, if_pos rfl]
      intro p hp
      rcases List.mem_cons.mp hp with h | h
      · subst h; exact hv
      · exact hm p (List.mem_cons_of_mem _ h)
    · simp only [mapSet, h2, if_false]
      intro p hp
      rcases List.mem_cons.mp hp with h | h
      · subst h; exact hm (k2, v2) (List.mem_cons_self _ _)
      · exact ih (fun q hq => hm q (List.mem_cons_of_mem _ hq)) hv p h

theorem new_ok_of_bounds {r : Nat} (h1 : 1 ≤ r) (h10 : r ≤ 10) :
    CheeseRating.new r = .ok ⟨r⟩ := by
  unfold CheeseRating.new
  rw [if_neg (by omega), if_neg (by omega)]

theorem ratingValid_of_new {r : Nat} {c : CheeseRating}
    (h : CheeseRating.new r = .ok c) : RatingValid c := by
  unfold CheeseRating.new at h
  split at h
  · cases h
  · split at h
    · cases h
    · obtain rfl := Except.ok.inj h
      dsimp [RatingValid]
      omega

/-- C4: for every u8-range integer r, CheeseRating::new succeeds and
wraps exactly r when 1 ≤ r ≤ 10, fails with BelowMinimumRating when
r < 1, and fails with ExceedsMaximumRating when r > 10. -/
theorem rating_construction_bounds (r : Nat) (hu8 : r ≤ 255) :
    (1 ≤ r → r ≤ 10 → CheeseRating.new r = .ok ⟨r⟩) ∧
    (r < 1 → CheeseRating.new r = .error .BelowMinimumRating) ∧
    (10 < r → CheeseRating.new r = .error .ExceedsMaximumRating) := by
  unfold CheeseRating.new
  refine ⟨fun h1 h10 => ?_, fun h1 => ?_, fun h10 => ?_⟩
  · rw [if_neg (by omega), if_neg (by omega)]
  · rw [if_pos h1]
  · rw [if_neg (by omega), if_pos h10]

/-- Witness for C4 at the concrete inputs 5, 0 and 11. -/
theorem rating_construction_bounds_witness :
    CheeseRating.new 5 = .ok ⟨5⟩ ∧
    CheeseRating.new 0 = .error .BelowMinimumRating ∧
    CheeseRating.new 11 = .error .ExceedsMaximumRating :=
  ⟨(rating_construction_bounds 5 (by decide)).1 (by decide) (by decide),
   (rating_construction_bounds 0 (by decide)).2.1 (by decide),
   (rating_construction_bounds 11 (by decide)).2.2 (by decide)⟩

/-- C5: inserting a cheese whose name already keys a registry entry
fails with DuplicateCheeseName and returns the registry unchanged. -/
theorem registry_insert_duplicate (reg : CheeseRegistry) (cheese : CheeseData)
    (h : mapContains cheese.name reg.entries = true) :
    reg.insert cheese = (.error .DuplicateCheeseName, reg) := by
  simp [CheeseRegistry.insert, h]

/-- Witness for C5: re-inserting the cheese named Foo into a registry
already holding it. -/
theorem registry_insert_duplicate_witness :
    mapContains (CheeseData.default.setName "Foo").name
        (CheeseRegistry.new.insert (CheeseData.default.setName "Foo")).2.entries = true ∧
    (CheeseRegistry.new.insert (CheeseData.default.setName "Foo")).2.insert
        (CheeseData.default.setName "Foo") =
      (.error .DuplicateCheeseName,
        (CheeseRegistry.new.insert (CheeseData.default.setName "Foo")).2) :=
  ⟨by decide, registry_insert_duplicate _ _ (by decide)⟩

/-- C6: rate_cheese on a cheese name absent from the registry fails
with NoSuchCheeseInRegistry and returns both the user and the
registry unchanged. -/
theorem rate_cheese_not_found (request : CheeseRatingRequest) (user : UserData)
    (registry : CheeseRegistry)
    (h : mapFind request.cheese registry.entries = none) :
    rate_cheese request user registry =
      (.error (.registryError .NoSuchCheeseInRegistry), user, registry) := by
  simp [rate_cheese, CheeseRegistry.get_mut, h]

/-- Witness for C6: rating the cheese named Foo against an empty
registry. -/
theorem rate_cheese_not_found_witness :
    mapFind "Foo" (CheeseRegistry.new).entries = (none : Option CheeseData) ∧
    rate_cheese ⟨5, "Foo"⟩ ⟨0, "", 0, ⟨[]⟩⟩ CheeseRegistry.new =
      (.error (.registryError .NoSuchCheeseInRegistry),
        ⟨0, "", 0, ⟨[]⟩⟩, CheeseRegistry.new) :=
  ⟨by decide, rate_cheese_not_found ⟨5, "Foo"⟩ ⟨0, "", 0, ⟨[]⟩⟩ CheeseRegistry.new (by decide)⟩

/-- C3: rating an existing cheese with an in-bounds rating, as a user
who has not rated it yet, succeeds; afterwards the cheese's rating
map binds the user's id to the rating and the user's rating map binds
the cheese name to the same rating. -/
theorem rate_cheese_success (request : CheeseRatingRequest) (user : UserData)
    (registry : CheeseRegistry) (cheese : CheeseData)
    (hfound : mapFind request.cheese registry.entries = some cheese)
    (huser : mapContains request.cheese user.cheese_ratings.entries = false)
    (_hcheese : mapContains user.id cheese.ratings.entries = false)
    (h1 : 1 ≤ request.rating) (h10 : request.rating ≤ 10) :
    (rate_cheese request user registry).1 = .ok () ∧
    (mapFind request.cheese (rate_cheese request user registry).2.2.entries).bind
        (fun c => c.ratings.get user.id) = some ⟨request.rating⟩ ∧
    (rate_cheese request user registry).2.1.cheese_ratings.get request.cheese =
      some ⟨request.rating⟩ := by
  have hnew := new_ok_of_bounds h1 h10
  simp [rate_cheese, CheeseRegistry.get_mut, hfound, hnew,
    UserData.insert_rating, huser,
    CheeseRegistry.setEntry, CheeseData.insert_rating,
    RegistryCheeseRatingMap.insert, RegistryCheeseRatingMap.get,
    UserCheeseRatingMap.insert, UserCheeseRatingMap.get,
    mapFind_mapSet_self]

/-- Witness for C3: user 0 rates the freshly created cheese Foo with 5. -/
theorem rate_cheese_success_witness :
    (mapFind "Foo" (create_new_cheese ⟨"Foo"⟩ CheeseRegistry.new).2.entries =
      some (CheeseData.default.setName "Foo")) ∧
    (mapContains "Foo" (⟨[]⟩ : UserCheeseRatingMap).entries = false) ∧
    (mapContains 0 (CheeseData.default.setName "Foo").ratings.entries = false) ∧
    ((rate_cheese ⟨5, "Foo"⟩ ⟨0, "", 0, ⟨[]⟩⟩
        (create_new_cheese ⟨"Foo"⟩ CheeseRegistry.new).2).1 = .ok () ∧
      (mapFind "Foo" (rate_cheese ⟨5, "Foo"⟩ ⟨0, "", 0, ⟨[]⟩⟩
          (create_new_cheese ⟨"Foo"⟩ CheeseRegistry.new).2).2.2.entries).bind
        (fun c => c.ratings.get 0) = some ⟨5⟩ ∧
      (rate_cheese ⟨5, "Foo"⟩ ⟨0, "", 0, ⟨[]⟩⟩
          (create_new_cheese ⟨"Foo"⟩ CheeseRegistry.new).2).2.1.cheese_ratings.get "Foo" =
        some ⟨5⟩) :=
  ⟨by decide, by decide, by decide,
    rate_cheese_success ⟨5, "Foo"⟩ ⟨0, "", 0, ⟨[]⟩⟩
      (create_new_cheese ⟨"Foo"⟩ CheeseRegistry.new).2 (CheeseData.default.setName "Foo")
      (by decide) (by decide) (by decide) (by decide) (by decide)⟩

/-- C10: a successful rate_cheese leaves the user's id, name and age,
the registry's key list, every non-target registry entry, and the
target cheese's name unchanged. -/
theorem rate_cheese_frame (request : CheeseRatingRequest) (user : UserData)
    (registry : CheeseRegistry)
    (hok : (rate_cheese request user registry).1 = .ok ()) :
    (rate_cheese request user registry).2.1.id = user.id ∧
    (rate_cheese request user registry).2.1.name = user.name ∧
    (rate_cheese request user registry).2.1.age = user.age ∧
    (rate_cheese request user registry).2.2.entries.map Prod.fst =
      registry.entries.map Prod.fst ∧
    (∀ n, n ≠ request.cheese →
      mapFind n (rate_cheese request user registry).2.2.entries =
        mapFind n registry.entries) ∧
    (∀ c c', mapFind request.cheese registry.entries = some c →
      mapFind request.cheese (rate_cheese request user registry).2.2.entries = some c' →
        c'.name = c.name) := by
  cases hmf : mapFind request.cheese registry.entries with
  | none => simp [rate_cheese, CheeseRegistry.get_mut, hmf] at hok
  | some cheese =>
    cases hnew : CheeseRating.new request.rating with
    | error e => simp [rate_cheese, CheeseRegistry.get_mut, hmf, hnew] at hok
    | ok rating =>
      by_cases hdup : mapContains request.cheese user.cheese_ratings.entries = true
      · simp [rate_cheese, CheeseRegistry.get_mut, hmf, hnew,
          UserData.insert_rating, hdup] at hok
      · have hcont : mapContains request.cheese registry.entries = true := by
          simp [mapContains, hmf]
        have hdupF : mapContains request.cheese user.cheese_ratings.entries = false := by
          simpa using hdup
        have hred : rate_cheese request user registry =
            (.ok (), { user with cheese_ratings :=
                user.cheese_ratings.insert ⟨request.cheese, rating⟩ },
              registry.setEntry request.cheese
                (cheese.insert_rating ⟨user.id, rating⟩)) := by
          simp [rate_cheese, CheeseRegistry.get_mut, hmf, hnew,
            UserData.insert_rating, hdupF]
        rw [hred]
        refine ⟨rfl, rfl, rfl, keys_mapSet_of_contains _ hcont, ?_, ?_⟩
        · intro n hn
          exact mapFind_mapSet_ne hn _ _
        · intro c c' hc hc'
          obtain rfl := Option.some.inj hc
          have hc2 : mapFind request.cheese
              (registry.setEntry request.cheese
                (cheese.insert_rating ⟨user.id, rating⟩)).entries =
              some (cheese.insert_rating ⟨user.id, rating⟩) :=
            mapFind_mapSet_self _ _ _
          obtain rfl := Option.some.inj (hc2.symm.trans hc')
          rfl

/-- Witness for C10: user 0 rates the freshly created cheese Foo with 7. -/
theorem rate_cheese_frame_witness :
    ((rate_cheese ⟨7, "Foo"⟩ ⟨0, "", 0, ⟨[]⟩⟩
        (create_new_cheese ⟨"Foo"⟩ CheeseRegistry.new).2).1 = .ok ()) ∧
    ((rate_cheese ⟨7, "Foo"⟩ ⟨0, "", 0, ⟨[]⟩⟩
        (create_new_cheese ⟨"Foo"⟩ CheeseRegistry.new).2).2.1.id = 0 ∧
      (rate_cheese ⟨7, "Foo"⟩ ⟨0, "", 0, ⟨[]⟩⟩
        (create_new_cheese ⟨"Foo"⟩ CheeseRegistry.new).2).2.2.entries.map Prod.fst =
        (create_new_cheese ⟨"Foo"⟩ CheeseRegistry.new).2.entries.map Prod.fst) :=
  ⟨by decide,
    (rate_cheese_frame ⟨7, "Foo"⟩ ⟨0, "", 0, ⟨[]⟩⟩
      (create_new_cheese ⟨"Foo"⟩ CheeseRegistry.new).2 (by decide)).1,
    (rate_cheese_frame ⟨7, "Foo"⟩ ⟨0, "", 0, ⟨[]⟩⟩
      (create_new_cheese ⟨"Foo"⟩ CheeseRegistry.new).2 (by decide)).2.2.2.1⟩

/-- C1 (evaluation at the failing input): user 0 rates Foo with 5,
which succeeds and stores 5 on both sides; rating Foo again with 6
fails with the user-side duplicate-key error, but the cheese-side
insert of the second call has already been applied, so the cheese's
rating map now binds user 0 to 6 instead of the first call's 5. -/
theorem rate_cheese_second_call_partial :
    rate_cheese ⟨5, "Foo"⟩ ⟨0, "", 0, ⟨[]⟩⟩ ⟨[("Foo", ⟨"Foo", ⟨[]⟩⟩)]⟩ =
      (.ok (), ⟨0, "", 0, ⟨[("Foo", ⟨5⟩)]⟩⟩,
        ⟨[("Foo", ⟨"Foo", ⟨[(0, ⟨5⟩)]⟩⟩)]⟩) ∧
    rate_cheese ⟨6, "Foo"⟩ ⟨0, "", 0, ⟨[("Foo", ⟨5⟩)]⟩⟩
        ⟨[("Foo", ⟨"Foo", ⟨[(0, ⟨5⟩)]⟩⟩)]⟩ =
      (.error (.userError .DuplicateCheeseName),
        ⟨0, "", 0, ⟨[("Foo", ⟨5⟩)]⟩⟩,
        ⟨[("Foo", ⟨"Foo", ⟨[(0, ⟨6⟩)]⟩⟩)]⟩) :=
  ⟨by decide, by decide⟩

/-- C2 counterexample: the cheese-side RegistryCheeseRatingMap::insert
at an already-present key does not fail (it has no error channel at
all) and does not leave the map unchanged: it overwrites 5 with 6. -/
theorem registry_rating_map_insert_overwrites :
    RegistryCheeseRatingMap.insert ⟨[(0, ⟨5⟩)]⟩ ⟨0, ⟨6⟩⟩ = ⟨[(0, ⟨6⟩)]⟩ ∧
    RegistryCheeseRatingMap.insert ⟨[(0, ⟨5⟩)]⟩ ⟨0, ⟨6⟩⟩ ≠ ⟨[(0, ⟨5⟩)]⟩ := by
  decide

/-- C2 amended: only the user-side insert (UserData::insert_rating)
rejects a present key with a duplicate-key error and leaves the map
unchanged, and adds the pair when the key is absent; the cheese-side
RegistryCheeseRatingMap::insert never fails and always ends with the
new rating stored under the key. -/
theorem rating_map_insert_duplicate_behavior (user : UserData)
    (r : UserCheeseRating) (m : RegistryCheeseRatingMap)
    (s : RegistryCheeseRating) :
    (mapContains r.cheese_name user.cheese_ratings.entries = true →
      user.insert_rating r = (.error .DuplicateCheeseName, user)) ∧
    (mapContains r.cheese_name user.cheese_ratings.entries = false →
      user.insert_rating r =
        (.ok (), { user with cheese_ratings := user.cheese_ratings.insert r })) ∧
    (m.insert s).get s.user_id = some s.rating := by
  refine ⟨fun h => ?_, fun h => ?_, ?_⟩
  · simp [UserData.insert_rating, h]
  · simp [UserData.insert_rating, h]
  · exact mapFind_mapSet_self _ _ _

/-- Witness for the amended C2 at concrete inputs: a user who already
rated Foo, a user-side map without Bar, and a cheese-side overwrite. -/
theorem rating_map_insert_duplicate_behavior_witness :
    (mapContains "Foo" (⟨[("Foo", ⟨5⟩)]⟩ : UserCheeseRatingMap).entries = true) ∧
    UserData.insert_rating ⟨0, "", 0, ⟨[("Foo", ⟨5⟩)]⟩⟩ ⟨"Foo", ⟨6⟩⟩ =
      (.error .DuplicateCheeseName, ⟨0, "", 0, ⟨[("Foo", ⟨5⟩)]⟩⟩) ∧
    (RegistryCheeseRatingMap.insert ⟨[]⟩ ⟨2, ⟨5⟩⟩).get 2 = some ⟨5⟩ :=
  ⟨by decide,
    (rating_map_insert_duplicate_behavior ⟨0, "", 0, ⟨[("Foo", ⟨5⟩)]⟩⟩
      ⟨"Foo", ⟨6⟩⟩ ⟨[]⟩ ⟨2, ⟨5⟩⟩).1 (by decide),
    (rating_map_insert_duplicate_behavior ⟨0, "", 0, ⟨[("Foo", ⟨5⟩)]⟩⟩
      ⟨"Foo", ⟨6⟩⟩ ⟨[]⟩ ⟨2, ⟨5⟩⟩).2.2⟩

/-- C8 counterexample: looking up an absent key in either production
rating map yields no value at all (the Rust code panics on the direct
HashMap index), not a NotFound error value. -/
theorem rating_map_get_absent_no_error :
    RegistryCheeseRatingMap.get ⟨[]⟩ 0 = none ∧
    UserCheeseRatingMap.get ⟨[]⟩ "Chedder" = none := by
  decide

/-- C8 amended: for every rating map and absent key, get returns no
value - the embedded marker of the source's panic on HashMap
indexing; neither map type has a NotFound-returning lookup. -/
theorem rating_map_get_absent_panics (m : RegistryCheeseRatingMap) (u : Uuid)
    (m2 : UserCheeseRatingMap) (n : String)
    (h1 : mapContains u m.entries = false)
    (h2 : mapContains n m2.entries = false) :
    m.get u = none ∧ m2.get n = none := by
  refine ⟨?_, ?_⟩
  · cases hf : mapFind u m.entries with
    | none => exact hf
    | some v => simp [mapContains, hf] at h1
  · cases hf : mapFind n m2.entries with
    | none => exact hf
    | some v => simp [mapContains, hf] at h2

/-- Witness for the amended C8 at empty maps and concrete keys. -/
theorem rating_map_get_absent_panics_witness :
    (mapContains 3 (⟨[]⟩ : RegistryCheeseRatingMap).entries = false) ∧
    (mapContains "Brie" (⟨[]⟩ : UserCheeseRatingMap).entries = false) ∧
    (RegistryCheeseRatingMap.get ⟨[]⟩ 3 = none ∧
      UserCheeseRatingMap.get ⟨[]⟩ "Brie" = none) :=
  ⟨by decide, by decide,
    rating_map_get_absent_panics ⟨[]⟩ 3 ⟨[]⟩ "Brie" (by decide) (by decide)⟩

theorem string_le_chedder_colby : ("Chedder" : String) ≤ "Colby Jack" := by
  rw [String.le_iff_toList_le]
  decide

theorem string_not_le_mozz_colby : ¬(("Mozzerella" : String) ≤ "Colby Jack") := by
  rw [String.le_iff_toList_le]
  decide

/-- C7: all_cheeses returns the registry's cheeses (a permutation of
its entries' values) sorted by name, and on the registry populated
with Chedder, Mozzerella, Colby Jack it returns them in the order
Chedder, Colby Jack, Mozzerella. -/
theorem all_cheeses_sorted_by_name :
    (∀ reg : CheeseRegistry,
      List.Sorted cheeseLE (all_cheeses reg) ∧
      (all_cheeses reg).Perm (reg.entries.map Prod.snd)) ∧
    (all_cheeses demoRegistry).map CheeseData.name =
      ["Chedder", "Colby Jack", "Mozzerella"] := by
  refine ⟨fun reg => ⟨List.sorted_insertionSort cheeseLE _,
    List.perm_insertionSort cheeseLE _⟩, ?_⟩
  have hreg : demoRegistry =
      ⟨[("Chedder", ⟨"Chedder", ⟨[]⟩⟩), ("Mozzerella", ⟨"Mozzerella", ⟨[]⟩⟩),
        ("Colby Jack", ⟨"Colby Jack", ⟨[]⟩⟩)]⟩ := by decide
  rw [all_cheeses, hreg]
  simp [List.insertionSort, List.orderedInsert, cheeseLE,
    string_le_chedder_colby, string_not_le_mozz_colby]
  decide

theorem registry_insert_WF {reg : CheeseRegistry} {c : CheeseData}
    (hreg : RegistryWF reg) (hc : CheeseWF c) : RegistryWF (reg.insert c).2 := by
  unfold CheeseRegistry.insert
  by_cases h : mapContains c.name reg.entries = true
  · simpa [h] using hreg
  · have hF : mapContains c.name reg.entries = false := by simpa using h
    simp only [hF, Bool.false_eq_true, if_false]
    exact fun p hp => mapSet_forall hreg hc p hp

theorem create_new_cheese_WF {req : NewCheeseRequest} {reg : CheeseRegistry}
    (hreg : RegistryWF reg) : RegistryWF (create_new_cheese req reg).2 :=
  registry_insert_WF hreg (fun _ hp => nomatch hp)

theorem rate_cheese_WF {req : CheeseRatingRequest} {user : UserData}
    {reg : CheeseRegistry} (hreg : RegistryWF reg) (huser : UserWF user) :
    RegistryWF (rate_cheese req user reg).2.2 ∧
    UserWF (rate_cheese req user reg).2.1 := by
  cases hmf : mapFind req.cheese reg.entries with
  | none =>
    simp only [rate_cheese, CheeseRegistry.get_mut, hmf]
    exact ⟨hreg, huser⟩
  | some cheese =>
    cases hnew : CheeseRating.new req.rating with
    | error e =>
      simp only [rate_cheese, CheeseRegistry.get_mut, hmf, hnew]
      exact ⟨hreg, huser⟩
    | ok rating =>
      have hval : RatingValid rating := ratingValid_of_new hnew
      have hcheeseWF : CheeseWF cheese := hreg _ (mapFind_mem hmf)
      have hreg2 : RegistryWF
          (reg.setEntry req.cheese (cheese.insert_rating ⟨user.id, rating⟩)) :=
        fun p hp =>
          mapSet_forall hreg (fun q hq => mapSet_forall hcheeseWF hval q hq) p hp
      by_cases hdup : mapContains req.cheese user.cheese_ratings.entries = true
      · simp only [rate_cheese, CheeseRegistry.get_mut, hmf, hnew,
          UserData.insert_rating, hdup, if_true]
        exact ⟨hreg2, huser⟩
      · have hdupF : mapContains req.cheese user.cheese_ratings.entries = false := by
          simpa using hdup
        simp only [rate_cheese, CheeseRegistry.get_mut, hmf, hnew,
          UserData.insert_rating, hdupF, Bool.false_eq_true, if_false]
        exact ⟨hreg2, fun p hp => mapSet_forall huser hval p hp⟩

theorem stepOp_WF {s : SysState} {op : Op} (hs : StateWF s) (hop : OpWF op) :
    StateWF (stepOp s op) := by
  obtain ⟨hreg, husers⟩ := hs
  cases op with
  | createCheese req => exact ⟨create_new_cheese_WF hreg, husers⟩
  | insertCheese c => exact ⟨registry_insert_WF hreg hop, husers⟩
  | rate i req =>
    show StateWF (match s.users[i]? with
      | none => s
      | some u => ⟨(rate_cheese req u s.registry).2.2,
          s.users.set i (rate_cheese req u s.registry).2.1⟩)
    cases hu : s.users[i]? with
    | none => exact ⟨hreg, husers⟩
    | some u =>
      have huWF : UserWF u := husers u (List.getElem?_mem hu)
      obtain ⟨hr, hu2⟩ := @rate_cheese_WF req u s.registry hreg huWF
      refine ⟨hr, fun u' hu' => ?_⟩
      rcases List.mem_or_eq_of_mem_set hu' with h | h
      · exact husers u' h
      · subst h
        exact hu2

/-- C9: starting from a state whose stored ratings are all in 1..=10,
any sequence of the public operations - create_new_cheese, rate_cheese,
registry insert (of a cheese whose ratings are in bounds, the only kind
constructible through the bounds-checked private constructor) - leaves
every rating stored in every cheese-side and user-side map in 1..=10. -/
theorem ratings_always_in_bounds (s : SysState) (ops : List Op)
    (hs : StateWF s) (hops : ∀ op ∈ ops, OpWF op) :
    StateWF (runOps s ops) := by
  induction ops generalizing s with
  | nil => simpa [runOps] using hs
  | cons op rest ih =>
    have h1 : StateWF (stepOp s op) := stepOp_WF hs (hops op (List.mem_cons_self _ _))
    have h2 : ∀ o ∈ rest, OpWF o := fun o ho => hops o (List.mem_cons_of_mem _ ho)
    simpa [runOps] using ih (stepOp s op) h1 h2

/-- Witness for C9: one user, then create Foo, rate it 5, and insert a
well-formed cheese Bar directly. -/
theorem ratings_always_in_bounds_witness :
    (StateWF ⟨CheeseRegistry.new, [⟨0, "", 0, ⟨[]⟩⟩]⟩ ∧
      ∀ op ∈ ([.createCheese ⟨"Foo"⟩, .rate 0 ⟨5, "Foo"⟩,
        .insertCheese ⟨"Bar", ⟨[(1, ⟨7⟩)]⟩⟩] : List Op), OpWF op) ∧
    StateWF (runOps ⟨CheeseRegistry.new, [⟨0, "", 0, ⟨[]⟩⟩]⟩
      [.createCheese ⟨"Foo"⟩, .rate 0 ⟨5, "Foo"⟩,
        .insertCheese ⟨"Bar", ⟨[(1, ⟨7⟩)]⟩⟩]) :=
  ⟨⟨by decide, by decide⟩,
    ratings_always_in_bounds ⟨CheeseRegistry.new, [⟨0, "", 0, ⟨[]⟩⟩]⟩
      [.createCheese ⟨"Foo"⟩, .rate 0 ⟨5, "Foo"⟩,
        .insertCheese ⟨"Bar", ⟨[(1, ⟨7⟩)]⟩⟩] (by decide) (by decide)⟩

end CheeseWizard
